import Mathlib

/-!
# Verification of `pkg/multicluster/target.go` (kuadrant-operator)

Shallow embedding of the multicluster gateway target resolution core:
geo/weight resolution per cluster gateway, aggregation into a
`GatewayTarget`, grouping by geo, and the base36/SHA-224 short-code
generator.  Go maps of labels are modelled as association lists with
first-occurrence lookup; Go `nil` pointers / slices are modelled with
`Option`; Go `error` returns are modelled with `Except String`.
-/

set_option maxRecDepth 100000

namespace Multicluster

/-! ## Labels and label selectors (k8s.io/apimachinery model)

The label-selector types and their parsing/matching semantics live in the
Kubernetes apimachinery library, outside this repository.  They are
modelled here after their documented contract (which the spec's §9 also
describes): a selector is a conjunction of `matchLabels` equalities and
`matchExpressions` requirements; parsing validates each requirement's
operator/value combination and fails on a malformed one; a `nil` selector
parses to a selector that matches nothing. -/

/-- A Go `map[string]string` of labels, modelled as an association list
with unique keys looked up by first occurrence. -/
abbrev Labels := List (String × String)

/-- First-occurrence lookup in a label map. -/
def lookupLabel (k : String) : Labels → Option String
  | [] => none
  | p :: rest => if p.1 = k then some p.2 else lookupLabel k rest

/-- Operator of a `metav1.LabelSelectorRequirement`; `opInvalid` stands for
any operator string outside the four valid ones. -/
inductive LabelSelectorOperator where
  | opIn
  | opNotIn
  | opExists
  | opDoesNotExist
  | opInvalid (s : String)
  deriving DecidableEq

/-- A `metav1.LabelSelectorRequirement`. -/
structure LabelSelectorRequirement where
  key : String
  operator : LabelSelectorOperator
  values : List String
  deriving DecidableEq

/-- A `metav1.LabelSelector`: conjunction of equality pairs and
requirements. -/
structure LabelSelector where
  matchLabels : List (String × String)
  matchExpressions : List LabelSelectorRequirement
  deriving DecidableEq

/-- A parsed requirement of a `labels.Selector` (only valid
operator/value combinations occur here). -/
structure Requirement where
  key : String
  operator : LabelSelectorOperator
  values : List String
  deriving DecidableEq

/-- A parsed `labels.Selector`: either the nothing-selector (from a `nil`
`*metav1.LabelSelector`) or a conjunction of requirements. -/
inductive Selector where
  | nothing
  | requirements (rs : List Requirement)
  deriving DecidableEq

/-- Validation + translation of one `LabelSelectorRequirement`, after
`metav1.LabelSelectorAsSelector`: `In`/`NotIn` need a non-empty value
list, `Exists`/`DoesNotExist` need an empty one, and an unknown operator
is an error. -/
def parseRequirement (r : LabelSelectorRequirement) : Except String Requirement :=
  match r.operator with
  | .opIn =>
    if r.values.isEmpty then .error "for in operator, values set cannot be empty"
    else .ok ⟨r.key, .opIn, r.values⟩
  | .opNotIn =>
    if r.values.isEmpty then .error "for notin operator, values set cannot be empty"
    else .ok ⟨r.key, .opNotIn, r.values⟩
  | .opExists =>
    if r.values.isEmpty then .ok ⟨r.key, .opExists, r.values⟩
    else .error "values set must be empty for exists and does not exist"
  | .opDoesNotExist =>
    if r.values.isEmpty then .ok ⟨r.key, .opDoesNotExist, r.values⟩
    else .error "values set must be empty for exists and does not exist"
  | .opInvalid s => .error (s ++ " is not a valid label selector operator")

/-- Parse the list of `matchExpressions`, failing at the first malformed
one. -/
def parseRequirements : List LabelSelectorRequirement → Except String (List Requirement)
  | [] => .ok []
  | r :: rest =>
    match parseRequirement r with
    | .error e => .error e
    | .ok req =>
      match parseRequirements rest with
      | .error e => .error e
      | .ok reqs => .ok (req :: reqs)

/-- `metav1.LabelSelectorAsSelector`: a `nil` pointer yields the
nothing-selector; otherwise each `matchLabels` pair becomes an `In`
requirement with a single value and each `matchExpressions` entry is
validated and translated. -/
def LabelSelectorAsSelector (ps : Option LabelSelector) : Except String Selector :=
  match ps with
  | none => .ok .nothing
  | some ls =>
    match parseRequirements ls.matchExpressions with
    | .error e => .error e
    | .ok reqs =>
      .ok (.requirements (ls.matchLabels.map (fun p => ⟨p.1, .opIn, [p.2]⟩) ++ reqs))

/-- Whether one parsed requirement holds of a label map
(`labels.Requirement.Matches`). -/
def reqMatches (lbls : Labels) (r : Requirement) : Bool :=
  match r.operator with
  | .opIn =>
    match lookupLabel r.key lbls with
    | some v => r.values.contains v
    | none => false
  | .opNotIn =>
    match lookupLabel r.key lbls with
    | some v => !r.values.contains v
    | none => true
  | .opExists => (lookupLabel r.key lbls).isSome
  | .opDoesNotExist => (lookupLabel r.key lbls).isNone
  | .opInvalid _ => false

/-- `labels.Selector.Matches` on a label set: the nothing-selector matches
no labels; a requirement list matches when every requirement holds. -/
def selMatches (s : Selector) (lbls : Labels) : Bool :=
  match s with
  | .nothing => false
  | .requirements rs => rs.all (reqMatches lbls)

/-! ## Data model (`api/v1alpha1` and `ClusterGateway`)

These types are repository code outside `src/` (the `v1alpha1` API
package and the `ClusterGateway` record produced by discovery); they are
modelled from the spec's §3 data model. -/

/-- Modelled from the spec: geo code, a string identifier of a geographic
routing region (`v1alpha1.GeoCode`). -/
abbrev GeoCode := String

/-- Modelled from the spec: the well-known system default geo constant
(`v1alpha1.DefaultGeo`); its exact string is not in `src/` and no claim
depends on it, only on equality with it. -/
def DefaultGeo : GeoCode := "default"

/-- Modelled from the spec: the well-known system default weight constant
(`v1alpha1.DefaultWeight`); its exact value is not in `src/` and no claim
depends on it. -/
def DefaultWeight : Int := 120

/-- Modelled from the spec: one custom weight override
(`v1alpha1.CustomWeight`), pairing a label selector (a possibly-`nil`
pointer) with a weight. -/
structure CustomWeight where
  Selector : Option LabelSelector
  Weight : Int
  deriving DecidableEq

/-- Modelled from the spec: the optional `geo` sub-spec carrying
`defaultGeo` (`v1alpha1.LoadBalancingGeo`). -/
structure LoadBalancingGeo where
  DefaultGeo : GeoCode
  deriving DecidableEq

/-- Modelled from the spec: the optional `weighted` sub-spec carrying
`defaultWeight` and the ordered custom overrides
(`v1alpha1.LoadBalancingWeighted`). -/
structure LoadBalancingWeighted where
  DefaultWeight : Int
  Custom : List CustomWeight
  deriving DecidableEq

/-- Modelled from the spec: the load-balancing policy
(`v1alpha1.LoadBalancingSpec`) with its two optional (pointer) sub-specs. -/
structure LoadBalancingSpec where
  Geo : Option LoadBalancingGeo
  Weighted : Option LoadBalancingWeighted
  deriving DecidableEq

/-- Modelled from the spec: a discovered per-cluster gateway endpoint —
cluster identifier, namespace, name and label set (`ClusterGateway`). -/
structure ClusterGateway where
  ClusterName : String
  Namespace : String
  Name : String
  Labels : Labels
  deriving DecidableEq

/-- Label access on a cluster gateway (`GetLabels` via the embedded
Gateway's object metadata). -/
def ClusterGateway.GetLabels (cg : ClusterGateway) : Multicluster.Labels :=
  cg.Labels

/-- The identity of the logical Gateway (only name and namespace are read
by this core). -/
structure Gateway where
  Name : String
  Namespace : String
  deriving DecidableEq

/-! ## `target.go` proper -/

/-- `LabelLBAttributeGeoCode` constant from `target.go`. -/
def LabelLBAttributeGeoCode : String := "kuadrant.io/lb-attribute-geo-code"

/-- `ClusterGatewayTarget`: a cluster gateway enriched with resolved geo
and weight.  The Go struct holds `*ClusterGateway` (pointing at a fresh
copy of the by-value argument) and pointers `Geo`/`Weight` that are always
set by construction; they are modelled as plain values. -/
structure ClusterGatewayTarget where
  cluster : ClusterGateway
  Geo : GeoCode
  Weight : Int
  deriving DecidableEq

def ClusterGatewayTarget.GetLabels (t : ClusterGatewayTarget) : Labels :=
  t.cluster.Labels

def ClusterGatewayTarget.GetGeo (t : ClusterGatewayTarget) : GeoCode := t.Geo

def ClusterGatewayTarget.GetWeight (t : ClusterGatewayTarget) : Int := t.Weight

def ClusterGatewayTarget.GetName (t : ClusterGatewayTarget) : String :=
  t.cluster.ClusterName

/-- `setGeo` from `target.go`, as the pure value it stores in `t.Geo`: if
the default geo is the system default the labels are not consulted;
otherwise the `kuadrant.io/lb-attribute-geo-code` label, when present,
overrides the default. -/
def setGeo (cg : ClusterGateway) (defaultGeo : GeoCode) : GeoCode :=
  if defaultGeo = DefaultGeo then defaultGeo
  else
    match lookupLabel LabelLBAttributeGeoCode cg.GetLabels with
    | some gc => gc
    | none => defaultGeo

/-- `setWeight` from `target.go`, as the `Except` value it stores in
`t.Weight`: walk the custom overrides in order; parse each selector,
propagating a parse error; on the first selector matching the gateway's
labels take its weight and stop; otherwise fall through to the default. -/
def setWeight (cg : ClusterGateway) (defaultWeight : Int) :
    List CustomWeight → Except String Int
  | [] => .ok defaultWeight
  | cw :: rest =>
    match LabelSelectorAsSelector cw.Selector with
    | .error e => .error e
    | .ok selector =>
      if selMatches selector cg.GetLabels then .ok cw.Weight
      else setWeight cg defaultWeight rest

/-- `NewClusterGatewayTarget` from `target.go`: store the cluster gateway,
resolve geo (infallible) and weight (fallible); on a weight-resolution
error no target is produced. -/
def NewClusterGatewayTarget (cg : ClusterGateway) (defaultGeoCode : GeoCode)
    (defaultWeight : Int) (customWeights : List CustomWeight) :
    Except String ClusterGatewayTarget :=
  match setWeight cg defaultWeight customWeights with
  | .error e => .error e
  | .ok w => .ok ⟨cg, setGeo cg defaultGeoCode, w⟩

/-- `GatewayTarget`: the aggregate root.  `ClusterGatewayTargets` is `none`
while the Go slice field is `nil` (its zero value, before
`setClusterGatewayTargets` succeeds) and `some ts` once assigned. -/
structure GatewayTarget where
  gateway : Gateway
  ClusterGatewayTargets : Option (List ClusterGatewayTarget)
  LoadBalancing : Option LoadBalancingSpec
  deriving DecidableEq

/-- `GetDefaultGeo` from `target.go`. -/
def GatewayTarget.GetDefaultGeo (t : GatewayTarget) : GeoCode :=
  match t.LoadBalancing with
  | some lb =>
    match lb.Geo with
    | some g => g.DefaultGeo
    | none => DefaultGeo
  | none => DefaultGeo

/-- `GetDefaultWeight` from `target.go`. -/
def GatewayTarget.GetDefaultWeight (t : GatewayTarget) : Int :=
  match t.LoadBalancing with
  | some lb =>
    match lb.Weighted with
    | some w => w.DefaultWeight
    | none => DefaultWeight
  | none => DefaultWeight

/-- The `customWeights` local of `setClusterGatewayTargets`: the policy's
custom overrides when the weighted sub-spec is present, else the `nil`
slice. -/
def GatewayTarget.customWeights (t : GatewayTarget) : List CustomWeight :=
  match t.LoadBalancing with
  | some lb =>
    match lb.Weighted with
    | some w => w.Custom
    | none => []
  | none => []

/-- The loop of `setClusterGatewayTargets`: build one target per cluster
gateway in order, aborting at the first failure. -/
def setClusterGatewayTargetsLoop (defGeo : GeoCode) (defWeight : Int)
    (customs : List CustomWeight) :
    List ClusterGateway → Except String (List ClusterGatewayTarget)
  | [] => .ok []
  | cg :: rest =>
    match NewClusterGatewayTarget cg defGeo defWeight customs with
    | .error e => .error e
    | .ok cgt =>
      match setClusterGatewayTargetsLoop defGeo defWeight customs rest with
      | .error e => .error e
      | .ok ts => .ok (cgt :: ts)

/-- `setClusterGatewayTargets` from `target.go`, as the value it would
assign to `t.ClusterGatewayTargets` (the field is written only on
success). -/
def GatewayTarget.setClusterGatewayTargets (t : GatewayTarget)
    (clusterGateways : List ClusterGateway) :
    Except String (List ClusterGatewayTarget) :=
  setClusterGatewayTargetsLoop t.GetDefaultGeo t.GetDefaultWeight
    t.customWeights clusterGateways

/-- `NewGatewayTarget` from `target.go`: it always returns the allocated
struct (a non-`nil` pointer) together with the error of
`setClusterGatewayTargets`; the target-list field is populated only on
success. -/
def NewGatewayTarget (gateway : Gateway) (clusterGateways : List ClusterGateway)
    (loadBalancing : Option LoadBalancingSpec) : GatewayTarget × Option String :=
  match GatewayTarget.setClusterGatewayTargets ⟨gateway, none, loadBalancing⟩ clusterGateways with
  | .error e => (⟨gateway, none, loadBalancing⟩, some e)
  | .ok ts => (⟨gateway, some ts, loadBalancing⟩, none)

/-- `GetName` on `GatewayTarget` (`fmt.Sprintf("%s-%s", name, namespace)`). -/
def GatewayTarget.GetName (t : GatewayTarget) : String :=
  t.gateway.Name ++ "-" ++ t.gateway.Namespace

/-! ## Group-by-geo

The Go method builds a `map[v1alpha1.GeoCode][]ClusterGatewayTarget` by
appending each target to the bucket of its geo.  The map is modelled as
an association list with unique keys in insertion order; `mapAppend`
models `geoTargets[k] = append(geoTargets[k], v)`. -/

/-- The map type produced by `GroupTargetsByGeo`. -/
abbrev GeoMap := List (GeoCode × List ClusterGatewayTarget)

/-- `m[k] = append(m[k], v)` on the association-list map: extend the
bucket of `k` if present, otherwise add a fresh singleton bucket. -/
def mapAppend (m : GeoMap) (k : GeoCode) (v : ClusterGatewayTarget) : GeoMap :=
  match m with
  | [] => [(k, [v])]
  | (k', l) :: rest =>
    if k' = k then (k', l ++ [v]) :: rest else (k', l) :: mapAppend rest k v

/-- Bucket lookup: `m[g]`, with the empty list for an absent key (Go's
zero value for a slice read from a map). -/
def getBucket (m : GeoMap) (g : GeoCode) : List ClusterGatewayTarget :=
  match m with
  | [] => []
  | (k, l) :: rest => if k = g then l else getBucket rest g

/-- The range loop of `GroupTargetsByGeo`. -/
def groupLoop (acc : GeoMap) : List ClusterGatewayTarget → GeoMap
  | [] => acc
  | tg :: rest => groupLoop (mapAppend acc tg.GetGeo tg) rest

/-- The slice the Go method ranges over: the target-list field, an empty
range when the field is still `nil`. -/
def GatewayTarget.targets (t : GatewayTarget) : List ClusterGatewayTarget :=
  t.ClusterGatewayTargets.getD []

/-- `GroupTargetsByGeo` from `target.go`. -/
def GatewayTarget.GroupTargetsByGeo (t : GatewayTarget) : GeoMap :=
  groupLoop [] t.targets

/-! ## Short-code generator (`ToBase36Hash` / `ToBase36HashLen`)

`target.go` composes `crypto/sha256.Sum224`, base-36 encoding of the
digest bytes (`github.com/martinlindhe/base36.EncodeBytes`),
`strings.ToLower` and a string slice.  The two library functions are
external; they are modelled from the spec's §4.3 algorithm: a 224-bit
SHA-224 digest of the UTF-8 bytes (full FIPS 180-4 compression below),
and base-36 re-encoding of the digest read as a big-endian integer.
Byte strings are `List Nat` with elements below 256; 32-bit words are
`Nat` reduced modulo `2 ^ 32`. -/

/-- UTF-8 encoding of one scalar value. -/
def utf8EncodeChar (c : Char) : List Nat :=
  let n := c.toNat
  if n < 0x80 then [n]
  else if n < 0x800 then
    [0xC0 ||| (n >>> 6), 0x80 ||| (n &&& 0x3F)]
  else if n < 0x10000 then
    [0xE0 ||| (n >>> 12), 0x80 ||| ((n >>> 6) &&& 0x3F), 0x80 ||| (n &&& 0x3F)]
  else
    [0xF0 ||| (n >>> 18), 0x80 ||| ((n >>> 12) &&& 0x3F),
      0x80 ||| ((n >>> 6) &&& 0x3F), 0x80 ||| (n &&& 0x3F)]

/-- The UTF-8 bytes of a string (`[]byte(s)` in Go). -/
def utf8Bytes (s : String) : List Nat := (s.data.map utf8EncodeChar).flatten

/-- Reduction to a 32-bit word. -/
def w32 (n : Nat) : Nat := n % 4294967296

/-- 32-bit rotate right. -/
def rotr32 (x n : Nat) : Nat := w32 ((x >>> n) ||| (x <<< (32 - n)))

def shaCh (x y z : Nat) : Nat := (x &&& y) ^^^ ((x ^^^ 4294967295) &&& z)

def shaMaj (x y z : Nat) : Nat := (x &&& y) ^^^ (x &&& z) ^^^ (y &&& z)

def bigSigma0 (x : Nat) : Nat := rotr32 x 2 ^^^ rotr32 x 13 ^^^ rotr32 x 22

def bigSigma1 (x : Nat) : Nat := rotr32 x 6 ^^^ rotr32 x 11 ^^^ rotr32 x 25

def smallSigma0 (x : Nat) : Nat := rotr32 x 7 ^^^ rotr32 x 18 ^^^ (x >>> 3)

def smallSigma1 (x : Nat) : Nat := rotr32 x 17 ^^^ rotr32 x 19 ^^^ (x >>> 10)

/-- The sixty-four round constants of the SHA-256 family, FIPS 180-4
§4.2.2, written in decimal. -/
def shaK : List Nat :=
  [1116352408, 1899447441, 3049323471, 3921009573, 961987163,
   1508970993, 2453635748, 2870763221, 3624381080, 310598401,
   607225278, 1426881987, 1925078388, 2162078206, 2614888103,
   3248222580, 3835390401, 4022224774, 264347078, 604807628,
   770255983, 1249150122, 1555081692, 1996064986, 2554220882,
   2821834349, 2952996808, 3210313671, 3336571891, 3584528711,
   113926993, 338241895, 666307205, 773529912, 1294757372,
   1396182291, 1695183700, 1986661051, 2177026350, 2456956037,
   2730485921, 2820302411, 3259730800, 3345764771, 3516065817,
   3600352804, 4094571909, 275423344, 430227734, 506948616,
   659060556, 883997877, 958139571, 1322822218, 1537002063,
   1747873779, 1955562222, 2024104815, 2227730452, 2361852424,
   2428436474, 2756734187, 3204031479, 3329325298]

/-- The initial chaining value specific to SHA-224, FIPS 180-4 §5.3.2,
written in decimal. -/
def sha224InitH : List Nat :=
  [3238371032, 914150663, 812702999, 4144912697,
   4290775857, 1750603025, 1694076839, 3204075428]

/-- Big-endian bytes of `n`, `k` bytes wide. -/
def beBytes (k : Nat) (n : Nat) : List Nat :=
  match k with
  | 0 => []
  | k + 1 => beBytes k (n >>> 8) ++ [n &&& 0xFF]

/-- SHA padding: append `0x80`, zero bytes up to 56 mod 64, then the
64-bit big-endian message bit length. -/
def sha256Pad (msg : List Nat) : List Nat :=
  let len := msg.length
  let zeros := (119 - len % 64) % 64
  msg ++ [0x80] ++ List.replicate zeros 0 ++ beBytes 8 (8 * len)

/-- Group bytes into big-endian 32-bit words. -/
def toWords : List Nat → List Nat
  | b0 :: b1 :: b2 :: b3 :: rest =>
    ((((b0 <<< 8) ||| b1) <<< 8 ||| b2) <<< 8 ||| b3) :: toWords rest
  | _ => []

/-- Extend the 16 block words by `fuel` scheduled words (48 for SHA-256). -/
def shaSchedule (ws : List Nat) : Nat → List Nat
  | 0 => ws
  | f + 1 =>
    let n := ws.length
    let wt := w32 (smallSigma1 (ws.getD (n - 2) 0) + ws.getD (n - 7) 0 +
      smallSigma0 (ws.getD (n - 15) 0) + ws.getD (n - 16) 0)
    shaSchedule (ws ++ [wt]) f

/-- One compression round on the state `[a,b,c,d,e,f,g,h]`; `kw` is
`Kₜ + Wₜ` reduced mod 2³². -/
def shaRound (st : List Nat) (kw : Nat) : List Nat :=
  match st with
  | [a, b, c, d, e, f, g, h] =>
    let t1 := w32 (h + bigSigma1 e + shaCh e f g + kw)
    let t2 := w32 (bigSigma0 a + shaMaj a b c)
    [w32 (t1 + t2), a, b, c, w32 (d + t1), e, f, g]
  | _ => st

def shaRounds (st : List Nat) : List Nat → List Nat
  | [] => st
  | kw :: rest => shaRounds (shaRound st kw) rest

/-- Compress one 512-bit block (given as 16 words) into the chaining
state. -/
def shaCompress (hs : List Nat) (block : List Nat) : List Nat :=
  let ws := shaSchedule block 48
  let kws := List.zipWith (fun a b => w32 (a + b)) shaK ws
  let st := shaRounds hs kws
  List.zipWith (fun a b => w32 (a + b)) hs st

/-- Fold the compression over consecutive 64-byte blocks (`fuel` bounds
the number of steps; any bound at least the block count works). -/
def shaBlocks (fuel : Nat) (hs : List Nat) (msg : List Nat) : List Nat :=
  match fuel with
  | 0 => hs
  | f + 1 =>
    match msg with
    | [] => hs
    | _ => shaBlocks f (shaCompress hs (toWords (msg.take 64))) (msg.drop 64)

/-- Modelled from the spec: the 28-byte SHA-224 digest
(`crypto/sha256.Sum224`) of a byte string — pad, compress block-wise from
the SHA-224 initial value, keep the first seven words. -/
def sha224Bytes (msg : List Nat) : List Nat :=
  let padded := sha256Pad msg
  let hs := shaBlocks (padded.length + 1) sha224InitH padded
  ((hs.take 7).map (beBytes 4)).flatten

/-- A byte string read as a big-endian natural number. -/
def beBytesToNat (bs : List Nat) : Nat := bs.foldl (fun acc b => acc * 256 + b) 0

/-- The base-36 digit characters (uppercase, as the encoder emits). -/
def base36Digit (n : Nat) : Char :=
  "0123456789ABCDEFGHIJKLMNOPQRSTUVWXYZ".data.getD n '0'

/-- Digits of `n` in base 36, most significant first (`fuel` bounds the
digit count; 64 suffices for a 224-bit value). -/
def base36Aux : Nat → Nat → List Char
  | 0, _ => []
  | f + 1, n =>
    if n = 0 then [] else base36Aux f (n / 36) ++ [base36Digit (n % 36)]

/-- Modelled from the spec: base-36 encoding of a byte string read as a
big-endian integer (`base36.EncodeBytes`), uppercase alphanumerics. -/
def EncodeBytes (bs : List Nat) : String :=
  let n := beBytesToNat bs
  if n = 0 then "0" else String.mk (base36Aux 64 n)

/-- `strings.ToLower` restricted to its effect on ASCII, at the character
list level (the encoder's output is ASCII alphanumeric). -/
def strToLower (s : String) : String := String.mk (s.data.map Char.toLower)

/-- Go's `s[:l]` byte slice on an ASCII string, at the character list
level. -/
def strTake (s : String) (l : Nat) : String := String.mk (s.data.take l)

/-- `ToBase36Hash` from `target.go`: SHA-224 the string's bytes, base-36
encode the digest, lower-case. -/
def ToBase36Hash (s : String) : String :=
  strToLower (EncodeBytes (sha224Bytes (utf8Bytes s)))

/-- `ToBase36HashLen` from `target.go`: truncate the hash to `l`
characters. -/
def ToBase36HashLen (s : String) (l : Nat) : String :=
  strTake (ToBase36Hash s) l

/-- `GetShortCode` on `GatewayTarget`. -/
def GatewayTarget.GetShortCode (t : GatewayTarget) : String :=
  ToBase36HashLen t.GetName 7

/-- `GetShortCode` on `ClusterGatewayTarget`
(`fmt.Sprintf("%s-%s", clusterName, hash)`). -/
def ClusterGatewayTarget.GetShortCode (t : ClusterGatewayTarget) : String :=
  t.cluster.ClusterName ++ "-" ++
    ToBase36HashLen (t.cluster.Namespace ++ "-" ++ t.cluster.Name) 7

/-! ## Spec-side predicates and helpers used to state the claims -/

/-- Whether an `Except` result is the error case (`err != nil` in Go). -/
def isErr {α : Type} : Except String α → Bool
  | .error _ => true
  | .ok _ => false

/-- Spec-side (after §4.1's weight algorithm): scanning the ordered
overrides, a malformed selector is encountered before any entry whose
selector matches the given labels.  This is the condition under which
weight resolution fails. -/
def failsBeforeMatch (lbls : Labels) : List CustomWeight → Bool
  | [] => false
  | cw :: rest =>
    match LabelSelectorAsSelector cw.Selector with
    | .error _ => true
    | .ok sel => !selMatches sel lbls && failsBeforeMatch lbls rest

/-- Spec-side: a whole `CustomWeight` entry applies to a label set — its
selector parses and matches.  Used with `List.find?` to express "the
first override (in source order) whose selector matches". -/
def matchesCW (lbls : Labels) (cw : CustomWeight) : Bool :=
  match LabelSelectorAsSelector cw.Selector with
  | .ok sel => selMatches sel lbls
  | .error _ => false

/-! ## Concrete inputs for witnesses and counterexamples

These follow the worked example in §8 of the spec: a policy with
`defaultGeo "EU"`, `defaultWeight 100` and a `tier=premium → 200`
override; gateway A carries the geo label `US` and `tier=premium`,
gateway B carries no labels. -/

def gwEx : Gateway := ⟨"testgw", "testns"⟩

def cgA : ClusterGateway :=
  ⟨"kind-mgc-workload-1", "testns", "testgw",
    [(LabelLBAttributeGeoCode, "US"), ("tier", "premium")]⟩

def cgB : ClusterGateway := ⟨"kind-mgc-workload-2", "testns", "testgw", []⟩

/-- Gateway C of the spec's §8 examples: it carries the geo-override
label while the policy's geo sub-spec is absent. -/
def cgC : ClusterGateway :=
  ⟨"kind-mgc-workload-3", "testns", "testgw", [(LabelLBAttributeGeoCode, "US")]⟩

/-- A selector `matchLabels: {tier: premium}`. -/
def premiumSel : LabelSelector := ⟨[("tier", "premium")], []⟩

def premiumCW : CustomWeight := ⟨some premiumSel, 200⟩

/-- A malformed selector: a match expression with an invalid operator. -/
def badSel : LabelSelector := ⟨[], [⟨"tier", .opInvalid "BadOperator", []⟩]⟩

def badCW : CustomWeight := ⟨some badSel, 999⟩

/-- The §8 example policy. -/
def lbEx : LoadBalancingSpec := ⟨some ⟨"EU"⟩, some ⟨100, [premiumCW]⟩⟩

/-- A policy whose override list has a malformed entry placed after a
matching one. -/
def lbMalformedAfterMatch : LoadBalancingSpec :=
  ⟨some ⟨"EU"⟩, some ⟨100, [premiumCW, badCW]⟩⟩

/-- A policy whose only override is malformed. -/
def lbMalformedOnly : LoadBalancingSpec := ⟨none, some ⟨100, [badCW]⟩⟩

/-- Dummy values used as `getD` defaults when stating index-wise facts. -/
def cgDflt : ClusterGateway := ⟨"", "", "", []⟩

def cgtDflt : ClusterGatewayTarget := ⟨cgDflt, "", 0⟩

/-- The resolved targets of the §8 example (geo label override applies to
A, default geo to B; the premium override applies to A, the default
weight to B). -/
def cgtA : ClusterGatewayTarget := ⟨cgA, "US", 200⟩

def cgtB : ClusterGatewayTarget := ⟨cgB, "EU", 100⟩

/-- A built aggregate with the §8 example's resolved targets, used to
exercise `GroupTargetsByGeo`. -/
def gtEx : GatewayTarget := ⟨gwEx, some [cgtA, cgtB], some lbEx⟩

/-! ## Characterization lemmas for the construction loop -/

lemma newClusterGatewayTarget_ok {cg : ClusterGateway} {dg : GeoCode} {dw : Int}
    {cu : List CustomWeight} {t : ClusterGatewayTarget}
    (h : NewClusterGatewayTarget cg dg dw cu = .ok t) :
    t.cluster = cg ∧ t.Geo = setGeo cg dg ∧ setWeight cg dw cu = .ok t.Weight := by
  unfold NewClusterGatewayTarget at h
  cases hw : setWeight cg dw cu with
  | error e => rw [hw] at h; cases h
  | ok w =>
    rw [hw] at h
    simp only [Except.ok.injEq] at h
    subst h
    exact ⟨rfl, rfl, rfl⟩

lemma setClusterGatewayTargetsLoop_ok_mem {dg : GeoCode} {dw : Int}
    {cu : List CustomWeight} (cgs : List ClusterGateway) :
    ∀ ts, setClusterGatewayTargetsLoop dg dw cu cgs = .ok ts →
      ∀ t ∈ ts, ∃ cg ∈ cgs, NewClusterGatewayTarget cg dg dw cu = .ok t := by
  induction cgs with
  | nil =>
    intro ts h t ht
    simp only [setClusterGatewayTargetsLoop, Except.ok.injEq] at h
    subst h
    simp at ht
  | cons cg rest ih =>
    intro ts h t ht
    simp only [setClusterGatewayTargetsLoop] at h
    cases h1 : NewClusterGatewayTarget cg dg dw cu with
    | error e => rw [h1] at h; cases h
    | ok cgt =>
      rw [h1] at h
      cases h2 : setClusterGatewayTargetsLoop dg dw cu rest with
      | error e => rw [h2] at h; cases h
      | ok ts2 =>
        rw [h2] at h
        simp only [Except.ok.injEq] at h
        subst h
        rcases List.mem_cons.mp ht with rfl | hmem
        · exact ⟨cg, List.mem_cons_self _ _, h1⟩
        · obtain ⟨cg2, hcg2, hok⟩ := ih ts2 h2 t hmem
          exact ⟨cg2, List.mem_cons_of_mem _ hcg2, hok⟩

lemma setClusterGatewayTargetsLoop_ok_map {dg : GeoCode} {dw : Int}
    {cu : List CustomWeight} (cgs : List ClusterGateway) :
    ∀ ts, setClusterGatewayTargetsLoop dg dw cu cgs = .ok ts →
      ts.map ClusterGatewayTarget.cluster = cgs := by
  induction cgs with
  | nil =>
    intro ts h
    simp only [setClusterGatewayTargetsLoop, Except.ok.injEq] at h
    subst h
    rfl
  | cons cg rest ih =>
    intro ts h
    simp only [setClusterGatewayTargetsLoop] at h
    cases h1 : NewClusterGatewayTarget cg dg dw cu with
    | error e => rw [h1] at h; cases h
    | ok cgt =>
      rw [h1] at h
      cases h2 : setClusterGatewayTargetsLoop dg dw cu rest with
      | error e => rw [h2] at h; cases h
      | ok ts2 =>
        rw [h2] at h
        simp only [Except.ok.injEq] at h
        subst h
        simp only [List.map_cons, (newClusterGatewayTarget_ok h1).1, ih ts2 h2]

lemma setClusterGatewayTargetsLoop_ok_getD {dg : GeoCode} {dw : Int}
    {cu : List CustomWeight} (cgs : List ClusterGateway) :
    ∀ ts, setClusterGatewayTargetsLoop dg dw cu cgs = .ok ts →
      ∀ i, i < cgs.length →
        NewClusterGatewayTarget (cgs.getD i cgDflt) dg dw cu = .ok (ts.getD i cgtDflt) := by
  induction cgs with
  | nil => intro ts _ i hi; simp at hi
  | cons cg rest ih =>
    intro ts h i hi
    simp only [setClusterGatewayTargetsLoop] at h
    cases h1 : NewClusterGatewayTarget cg dg dw cu with
    | error e => rw [h1] at h; cases h
    | ok cgt =>
      rw [h1] at h
      cases h2 : setClusterGatewayTargetsLoop dg dw cu rest with
      | error e => rw [h2] at h; cases h
      | ok ts2 =>
        rw [h2] at h
        simp only [Except.ok.injEq] at h
        subst h
        cases i with
        | zero => simpa using h1
        | succ j =>
          simp only [List.getD_cons_succ]
          exact ih ts2 h2 j (Nat.lt_of_succ_lt_succ hi)

lemma setWeight_isErr (cg : ClusterGateway) (d : Int) (cws : List CustomWeight) :
    isErr (setWeight cg d cws) = failsBeforeMatch cg.GetLabels cws := by
  induction cws with
  | nil => rfl
  | cons cw rest ih =>
    simp only [setWeight, failsBeforeMatch]
    cases hp : LabelSelectorAsSelector cw.Selector with
    | error e => rfl
    | ok sel =>
      by_cases hm : selMatches sel cg.GetLabels
      · simp [hm, isErr]
      · simp [hm, ih]

lemma getDefaultGeo_of_absent_or_default {gw : Gateway} {lb : Option LoadBalancingSpec}
    (h : Option.bind lb LoadBalancingSpec.Geo = none ∨
      ∃ g, Option.bind lb LoadBalancingSpec.Geo = some g ∧ g.DefaultGeo = DefaultGeo) :
    GatewayTarget.GetDefaultGeo ⟨gw, none, lb⟩ = DefaultGeo := by
  cases lb with
  | none => rfl
  | some s =>
    simp only [Option.bind, GatewayTarget.GetDefaultGeo] at *
    cases hg : s.Geo with
    | none => rfl
    | some g =>
      rw [hg] at h
      rcases h with h | ⟨g2, hg2, hdef⟩
      · cases h
      · simp only [Option.some.injEq] at hg2
        subst hg2
        exact hdef

lemma setGeo_default (cg : ClusterGateway) : setGeo cg DefaultGeo = DefaultGeo := by
  simp [setGeo]

lemma setClusterGatewayTargetsLoop_isErr {dg : GeoCode} {dw : Int}
    {cu : List CustomWeight} (cgs : List ClusterGateway) :
    isErr (setClusterGatewayTargetsLoop dg dw cu cgs) =
      cgs.any fun cg => isErr (setWeight cg dw cu) := by
  induction cgs with
  | nil => rfl
  | cons cg rest ih =>
    simp only [setClusterGatewayTargetsLoop, List.any_cons]
    cases hw : setWeight cg dw cu with
    | error e => simp [NewClusterGatewayTarget, hw, isErr]
    | ok w =>
      simp only [NewClusterGatewayTarget, hw, isErr, Bool.false_or]
      cases h2 : setClusterGatewayTargetsLoop dg dw cu rest with
      | error e => rw [h2] at ih; simpa [isErr] using ih.symm
      | ok ts2 => rw [h2] at ih; simpa [isErr] using ih.symm

/-- `NewGatewayTarget` either succeeds, filling the target list from the
loop, or fails, returning the freshly allocated struct with a `nil`
target list alongside the loop's error. -/
lemma newGatewayTarget_spec (gw : Gateway) (cgs : List ClusterGateway)
    (lb : Option LoadBalancingSpec) :
    (∃ ts, setClusterGatewayTargetsLoop (GatewayTarget.GetDefaultGeo ⟨gw, none, lb⟩)
        (GatewayTarget.GetDefaultWeight ⟨gw, none, lb⟩)
        (GatewayTarget.customWeights ⟨gw, none, lb⟩) cgs = .ok ts ∧
      NewGatewayTarget gw cgs lb = (⟨gw, some ts, lb⟩, none)) ∨
    (∃ e, setClusterGatewayTargetsLoop (GatewayTarget.GetDefaultGeo ⟨gw, none, lb⟩)
        (GatewayTarget.GetDefaultWeight ⟨gw, none, lb⟩)
        (GatewayTarget.customWeights ⟨gw, none, lb⟩) cgs = .error e ∧
      NewGatewayTarget gw cgs lb = (⟨gw, none, lb⟩, some e)) := by
  unfold NewGatewayTarget GatewayTarget.setClusterGatewayTargets
  cases h : setClusterGatewayTargetsLoop (GatewayTarget.GetDefaultGeo ⟨gw, none, lb⟩)
      (GatewayTarget.GetDefaultWeight ⟨gw, none, lb⟩)
      (GatewayTarget.customWeights ⟨gw, none, lb⟩) cgs with
  | error e => exact Or.inr ⟨e, rfl, rfl⟩
  | ok ts => exact Or.inl ⟨ts, rfl, rfl⟩

/-- C1: for a policy whose geo sub-spec is absent or whose `defaultGeo`
equals the system default geo constant, every cluster target of the
constructed `GatewayTarget` resolves to the system default geo, whatever
labels the cluster gateways carry (the short-circuit in `setGeo` never
consults `kuadrant.io/lb-attribute-geo-code`). -/
theorem geo_default_shortcircuits_ignoring_labels
    (gw : Gateway) (cgs : List ClusterGateway) (lb : Option LoadBalancingSpec)
    (h : Option.bind lb LoadBalancingSpec.Geo = none ∨
      ∃ g, Option.bind lb LoadBalancingSpec.Geo = some g ∧ g.DefaultGeo = DefaultGeo) :
    ∀ ts, (NewGatewayTarget gw cgs lb).1.ClusterGatewayTargets = some ts →
      ∀ t ∈ ts, t.GetGeo = DefaultGeo := by
  intro ts hts t ht
  rcases newGatewayTarget_spec gw cgs lb with ⟨ts2, hloop, heq⟩ | ⟨e, hloop, heq⟩
  · rw [heq] at hts
    simp only [Option.some.injEq] at hts
    subst hts
    obtain ⟨cg, _, hok⟩ := setClusterGatewayTargetsLoop_ok_mem cgs ts2 hloop t ht
    show t.Geo = DefaultGeo
    rw [(newClusterGatewayTarget_ok hok).2.1, getDefaultGeo_of_absent_or_default h,
      setGeo_default]
  · rw [heq] at hts
    cases hts

/-- Witness for C1: a policy with no geo sub-spec at all; gateway C
carries the geo-override label `US`, yet its resolved geo is the system
default. -/
theorem geo_default_shortcircuits_ignoring_labels_witness :
    (NewGatewayTarget gwEx [cgC] none).1.ClusterGatewayTargets =
      some [⟨cgC, DefaultGeo, DefaultWeight⟩] ∧
    (⟨cgC, DefaultGeo, DefaultWeight⟩ : ClusterGatewayTarget).GetGeo = DefaultGeo :=
  ⟨by decide,
   geo_default_shortcircuits_ignoring_labels gwEx [cgC] none (Or.inl rfl)
     [⟨cgC, DefaultGeo, DefaultWeight⟩] (by decide) _ (by decide)⟩

/-- C4: for a policy whose `geo.defaultGeo` differs from the system
default geo constant, a cluster gateway carrying the
`kuadrant.io/lb-attribute-geo-code` label resolves to the label's value,
and one without the label resolves to the policy's `defaultGeo`. -/
theorem geo_label_overrides_nondefault_policy
    (gw : Gateway) (lb : Option LoadBalancingSpec) (g : LoadBalancingGeo)
    (cg : ClusterGateway)
    (h1 : Option.bind lb LoadBalancingSpec.Geo = some g)
    (h2 : g.DefaultGeo ≠ DefaultGeo) :
    (∀ v, lookupLabel LabelLBAttributeGeoCode cg.GetLabels = some v →
      setGeo cg (GatewayTarget.GetDefaultGeo ⟨gw, none, lb⟩) = v) ∧
    (lookupLabel LabelLBAttributeGeoCode cg.GetLabels = none →
      setGeo cg (GatewayTarget.GetDefaultGeo ⟨gw, none, lb⟩) = g.DefaultGeo) := by
  have hdg : GatewayTarget.GetDefaultGeo ⟨gw, none, lb⟩ = g.DefaultGeo := by
    cases lb with
    | none => cases h1
    | some s =>
      simp only [Option.bind] at h1
      simp only [GatewayTarget.GetDefaultGeo, h1]
  constructor
  · intro v hv
    rw [hdg]
    simp only [setGeo, if_neg h2, hv]
  · intro hv
    rw [hdg]
    simp only [setGeo, if_neg h2, hv]

/-- Witness for C4, on the spec's §8 example (policy default geo `EU`):
gateway A carries the label `US` and resolves to `US`; gateway B carries
no labels and resolves to `EU`. -/
theorem geo_label_overrides_nondefault_policy_witness :
    setGeo cgA (GatewayTarget.GetDefaultGeo ⟨gwEx, none, some lbEx⟩) = "US" ∧
    setGeo cgB (GatewayTarget.GetDefaultGeo ⟨gwEx, none, some lbEx⟩) = "EU" :=
  ⟨(geo_label_overrides_nondefault_policy gwEx (some lbEx) ⟨"EU"⟩ cgA rfl
      (by decide)).1 "US" rfl,
   (geo_label_overrides_nondefault_policy gwEx (some lbEx) ⟨"EU"⟩ cgB rfl
      (by decide)).2 rfl⟩

lemma setWeight_firstMatch (cg : ClusterGateway) (d : Int) (cws : List CustomWeight) :
    (∀ cw ∈ cws, isErr (LabelSelectorAsSelector cw.Selector) = false) →
      setWeight cg d cws = .ok (match cws.find? (matchesCW cg.GetLabels) with
        | some cw => cw.Weight
        | none => d) := by
  induction cws with
  | nil => intro _; rfl
  | cons cw rest ih =>
    intro h
    have hcw := h cw (List.mem_cons_self _ _)
    cases hp : LabelSelectorAsSelector cw.Selector with
    | error e => rw [hp] at hcw; cases hcw
    | ok sel =>
      have hrest := fun cw2 hm => h cw2 (List.mem_cons_of_mem _ hm)
      by_cases hm : selMatches sel cg.GetLabels
      · have hpm : matchesCW cg.GetLabels cw = true := by
          simp [matchesCW, hp, hm]
        rw [List.find?_cons_of_pos _ hpm]
        simp only [setWeight, hp, if_pos hm]
      · have hpm : ¬matchesCW cg.GetLabels cw = true := by
          simp [matchesCW, hp, hm]
        rw [List.find?_cons_of_neg _ hpm]
        simp only [setWeight, hp, if_neg hm]
        exact ih hrest

/-- C3: with all override selectors well-formed, the resolved weight is
the weight of the first override (in source order) whose selector matches
the gateway's labels, and the effective default — returned when no
override matches — is the policy's `weighted.defaultWeight` when the
weighted sub-spec is present, else the system default weight constant. -/
theorem weight_first_match_wins
    (gw : Gateway) (lb : Option LoadBalancingSpec) (cg : ClusterGateway)
    (d : Int) (cws : List CustomWeight)
    (h : ∀ cw ∈ cws, isErr (LabelSelectorAsSelector cw.Selector) = false) :
    setWeight cg d cws = .ok (match cws.find? (matchesCW cg.GetLabels) with
      | some cw => cw.Weight
      | none => d) ∧
    GatewayTarget.GetDefaultWeight ⟨gw, none, lb⟩ =
      (match Option.bind lb LoadBalancingSpec.Weighted with
       | some w => w.DefaultWeight
       | none => DefaultWeight) := by
  refine ⟨setWeight_firstMatch cg d cws h, ?_⟩
  cases lb with
  | none => rfl
  | some s =>
    cases hw : s.Weighted with
    | none => simp only [GatewayTarget.GetDefaultWeight, Option.bind, hw]
    | some w => simp only [GatewayTarget.GetDefaultWeight, Option.bind, hw]

/-- Witness for C3, on the spec's §8 example: gateway A matches the
`tier=premium → 200` override and takes weight `200`; gateway B matches
no override and takes the policy default `100`; the effective default of
the example policy is `100`. -/
theorem weight_first_match_wins_witness :
    setWeight cgA 100 [premiumCW] = .ok 200 ∧
    setWeight cgB 100 [premiumCW] = .ok 100 ∧
    GatewayTarget.GetDefaultWeight ⟨gwEx, none, some lbEx⟩ = 100 :=
  ⟨(weight_first_match_wins gwEx (some lbEx) cgA 100 [premiumCW] (by decide)).1,
   (weight_first_match_wins gwEx (some lbEx) cgB 100 [premiumCW] (by decide)).1,
   (weight_first_match_wins gwEx (some lbEx) cgB 100 [premiumCW] (by decide)).2⟩

/-- C2 counterexample: a policy whose override list contains a malformed
selector (`badCW`), yet `NewGatewayTarget` succeeds, because the matching
`tier=premium` entry precedes the malformed one and iteration stops at
the first match before ever parsing it. -/
theorem malformed_selector_does_not_always_fail :
    isErr (LabelSelectorAsSelector badCW.Selector) = true ∧
    badCW ∈ GatewayTarget.customWeights ⟨gwEx, none, some lbMalformedAfterMatch⟩ ∧
    (NewGatewayTarget gwEx [cgA] (some lbMalformedAfterMatch)).2 = none := by
  decide

/-- C2 (amended): `NewGatewayTarget` fails iff, for some cluster gateway
in the input list, the ordered scan of the overrides reaches a malformed
selector before reaching any entry matching that gateway's labels; on
failure the returned struct carries no target list.  This is the only
failure mode. -/
theorem construction_fails_iff_malformed_before_match
    (gw : Gateway) (cgs : List ClusterGateway) (lb : Option LoadBalancingSpec) :
    ((NewGatewayTarget gw cgs lb).2.isSome = true ↔
      ∃ cg ∈ cgs, failsBeforeMatch cg.GetLabels
        (GatewayTarget.customWeights ⟨gw, none, lb⟩) = true) ∧
    ((NewGatewayTarget gw cgs lb).2.isSome = true →
      (NewGatewayTarget gw cgs lb).1.ClusterGatewayTargets = none) := by
  have hAny : isErr (setClusterGatewayTargetsLoop
      (GatewayTarget.GetDefaultGeo ⟨gw, none, lb⟩)
      (GatewayTarget.GetDefaultWeight ⟨gw, none, lb⟩)
      (GatewayTarget.customWeights ⟨gw, none, lb⟩) cgs) =
      cgs.any fun cg => failsBeforeMatch cg.GetLabels
        (GatewayTarget.customWeights ⟨gw, none, lb⟩) := by
    rw [setClusterGatewayTargetsLoop_isErr]
    simp only [setWeight_isErr]
  rcases newGatewayTarget_spec gw cgs lb with ⟨ts, hloop, heq⟩ | ⟨e, hloop, heq⟩
  · rw [hloop] at hAny
    rw [heq]
    constructor
    · constructor
      · intro hfalse; simp at hfalse
      · intro hex
        exfalso
        have : cgs.any (fun cg => failsBeforeMatch cg.GetLabels
            (GatewayTarget.customWeights ⟨gw, none, lb⟩)) = true :=
          List.any_eq_true.mpr hex
        rw [← hAny] at this
        simp [isErr] at this
    · intro hfalse; simp at hfalse
  · rw [hloop] at hAny
    rw [heq]
    constructor
    · constructor
      · intro _
        exact List.any_eq_true.mp (by rw [← hAny]; rfl)
      · intro _; rfl
    · intro _; rfl

/-- Witness for the amended C2: with a policy whose only override is
malformed and a non-empty cluster list, construction fails, the failure
condition holds of the input, and the returned struct's target list is
`nil`. -/
theorem construction_fails_iff_malformed_before_match_witness :
    (NewGatewayTarget gwEx [cgA] (some lbMalformedOnly)).1.ClusterGatewayTargets = none ∧
    ∃ cg ∈ [cgA], failsBeforeMatch cg.GetLabels
      (GatewayTarget.customWeights ⟨gwEx, none, some lbMalformedOnly⟩) = true :=
  ⟨(construction_fails_iff_malformed_before_match gwEx [cgA] (some lbMalformedOnly)).2
     (by decide),
   (construction_fails_iff_malformed_before_match gwEx [cgA] (some lbMalformedOnly)).1.mp
     (by decide)⟩

/-- C5: on success the target list has exactly one entry per input
cluster gateway, in input order — the i-th target embeds, and is resolved
from, the i-th input — and an empty input list succeeds with an empty
target list. -/
theorem targets_mirror_input_order
    (gw : Gateway) (cgs : List ClusterGateway) (lb : Option LoadBalancingSpec) :
    ((NewGatewayTarget gw cgs lb).2 = none →
      ∃ ts, (NewGatewayTarget gw cgs lb).1.ClusterGatewayTargets = some ts ∧
        ts.map ClusterGatewayTarget.cluster = cgs ∧
        ts.length = cgs.length ∧
        ∀ i, i < cgs.length →
          NewClusterGatewayTarget (cgs.getD i cgDflt)
            (GatewayTarget.GetDefaultGeo ⟨gw, none, lb⟩)
            (GatewayTarget.GetDefaultWeight ⟨gw, none, lb⟩)
            (GatewayTarget.customWeights ⟨gw, none, lb⟩) = .ok (ts.getD i cgtDflt)) ∧
    ((NewGatewayTarget gw [] lb).2 = none ∧
      (NewGatewayTarget gw [] lb).1.ClusterGatewayTargets = some []) := by
  constructor
  · intro hnone
    rcases newGatewayTarget_spec gw cgs lb with ⟨ts, hloop, heq⟩ | ⟨e, hloop, heq⟩
    · have hmap := setClusterGatewayTargetsLoop_ok_map cgs ts hloop
      refine ⟨ts, by rw [heq], hmap, ?_,
        setClusterGatewayTargetsLoop_ok_getD cgs ts hloop⟩
      have := congrArg List.length hmap
      simpa using this
    · rw [heq] at hnone; cases hnone
  · rcases newGatewayTarget_spec gw [] lb with ⟨ts, hloop, heq⟩ | ⟨e, hloop, heq⟩
    · simp only [setClusterGatewayTargetsLoop, Except.ok.injEq] at hloop
      subst hloop
      rw [heq]
      exact ⟨rfl, rfl⟩
    · simp [setClusterGatewayTargetsLoop] at hloop

/-- Witness for C5, on the spec's §8 example: construction over
`[A, B]` succeeds and the invariants hold of its output. -/
theorem targets_mirror_input_order_witness :
    (NewGatewayTarget gwEx [cgA, cgB] (some lbEx)).2 = none ∧
    ∃ ts, (NewGatewayTarget gwEx [cgA, cgB] (some lbEx)).1.ClusterGatewayTargets = some ts ∧
      ts.map ClusterGatewayTarget.cluster = [cgA, cgB] ∧
      ts.length = [cgA, cgB].length ∧
      ∀ i, i < [cgA, cgB].length →
        NewClusterGatewayTarget ([cgA, cgB].getD i cgDflt)
          (GatewayTarget.GetDefaultGeo ⟨gwEx, none, some lbEx⟩)
          (GatewayTarget.GetDefaultWeight ⟨gwEx, none, some lbEx⟩)
          (GatewayTarget.customWeights ⟨gwEx, none, some lbEx⟩) = .ok (ts.getD i cgtDflt) :=
  ⟨by decide, (targets_mirror_input_order gwEx [cgA, cgB] (some lbEx)).1 (by decide)⟩

/-- C9: whenever `NewGatewayTarget` reports an error, it still returns
the allocated struct (the non-`nil` pointer), whose target-list field was
never assigned: it equals the initial struct with a `nil` target list and
the original gateway and policy. -/
theorem error_returns_struct_with_nil_targets
    (gw : Gateway) (cgs : List ClusterGateway) (lb : Option LoadBalancingSpec)
    (h : (NewGatewayTarget gw cgs lb).2.isSome = true) :
    (NewGatewayTarget gw cgs lb).1 = ⟨gw, none, lb⟩ := by
  rcases newGatewayTarget_spec gw cgs lb with ⟨ts, _, heq⟩ | ⟨e, _, heq⟩
  · rw [heq] at h; simp at h
  · rw [heq]

/-- Witness for C9: a failing construction (malformed-only override list,
non-empty cluster list) returns the initial struct with a `nil` target
list. -/
theorem error_returns_struct_with_nil_targets_witness :
    (NewGatewayTarget gwEx [cgA] (some lbMalformedOnly)).2.isSome = true ∧
    (NewGatewayTarget gwEx [cgA] (some lbMalformedOnly)).1 =
      ⟨gwEx, none, some lbMalformedOnly⟩ :=
  ⟨by decide,
   error_returns_struct_with_nil_targets gwEx [cgA] (some lbMalformedOnly) (by decide)⟩

/-! ## Group-by-geo lemmas -/

lemma getBucket_mapAppend (k : GeoCode) (v : ClusterGatewayTarget) :
    ∀ (m : GeoMap) (g : GeoCode),
      getBucket (mapAppend m k v) g =
        if g = k then getBucket m g ++ [v] else getBucket m g := by
  intro m
  induction m with
  | nil =>
    intro g
    by_cases hgk : g = k
    · subst hgk; simp [mapAppend, getBucket]
    · have hkg : ¬k = g := fun h => hgk h.symm
      simp [mapAppend, getBucket, hgk, hkg]
  | cons p rest ih =>
    intro g
    obtain ⟨k', l⟩ := p
    by_cases hk : k' = k
    · subst hk
      by_cases hgk : g = k'
      · subst hgk; simp [mapAppend, getBucket]
      · have hkg : ¬k' = g := fun h => hgk h.symm
        simp [mapAppend, getBucket, hgk, hkg]
    · by_cases hgk : g = k
      · by_cases hkg : k' = g
        · exact absurd (hkg.trans hgk) hk
        · simp [mapAppend, getBucket, hk, hkg, hgk, ih]
      · by_cases hkg : k' = g
        · simp [mapAppend, getBucket, hk, hkg, hgk, ih]
        · simp [mapAppend, getBucket, hk, hkg, hgk, ih]

lemma getBucket_groupLoop :
    ∀ (xs : List ClusterGatewayTarget) (acc : GeoMap) (g : GeoCode),
      getBucket (groupLoop acc xs) g =
        getBucket acc g ++ xs.filter (fun x => x.GetGeo = g) := by
  intro xs
  induction xs with
  | nil => intro acc g; simp [groupLoop]
  | cons x rest ih =>
    intro acc g
    simp only [groupLoop]
    rw [ih, getBucket_mapAppend]
    by_cases hgk : g = x.GetGeo
    · rw [if_pos hgk]
      have hx : (decide (x.GetGeo = g)) = true := by simp [hgk.symm]
      simp [List.filter_cons, hx, List.append_assoc]
    · rw [if_neg hgk]
      have hx : ¬x.GetGeo = g := fun h => hgk h.symm
      simp [List.filter_cons, hx]

lemma flatten_mapAppend (k : GeoCode) (v : ClusterGatewayTarget) :
    ∀ m : GeoMap,
      List.Perm (((mapAppend m k v).map Prod.snd).flatten)
        ((m.map Prod.snd).flatten ++ [v]) := by
  intro m
  induction m with
  | nil =>
    simp only [mapAppend, List.map_cons, List.map_nil, List.flatten_cons,
      List.flatten_nil, List.append_nil, List.nil_append]
    exact List.Perm.refl _
  | cons p rest ih =>
    obtain ⟨k', l⟩ := p
    by_cases hk : k' = k
    · subst hk
      simp only [mapAppend, eq_self_iff_true, if_true, List.map_cons, List.flatten_cons]
      rw [List.append_assoc, List.append_assoc]
      exact List.Perm.append_left l List.perm_append_comm
    · simp only [mapAppend, if_neg hk, List.map_cons, List.flatten_cons]
      rw [List.append_assoc]
      exact List.Perm.append_left l ih

lemma flatten_groupLoop :
    ∀ (xs : List ClusterGatewayTarget) (acc : GeoMap),
      List.Perm (((groupLoop acc xs).map Prod.snd).flatten)
        ((acc.map Prod.snd).flatten ++ xs) := by
  intro xs
  induction xs with
  | nil =>
    intro acc
    simp only [groupLoop, List.append_nil]
    exact List.Perm.refl _
  | cons x rest ih =>
    intro acc
    simp only [groupLoop]
    refine (ih (mapAppend acc x.GetGeo x)).trans ?_
    refine (List.Perm.append_right rest (flatten_mapAppend x.GetGeo x acc)).trans ?_
    rw [List.append_assoc, List.singleton_append]

/-- C6: `GroupTargetsByGeo` is a complete partition of the target list —
each geo's bucket is exactly the ordered sub-sequence of targets with
that geo (so relative order is preserved), the concatenation of all
buckets is a permutation of the full target list, and every target lies
in exactly the bucket keyed by its own geo. -/
theorem groupTargetsByGeo_partitions (t : GatewayTarget) :
    (∀ g, getBucket t.GroupTargetsByGeo g =
      t.targets.filter (fun x => x.GetGeo = g)) ∧
    List.Perm ((t.GroupTargetsByGeo.map Prod.snd).flatten) t.targets ∧
    (∀ x ∈ t.targets, ∀ g,
      (x ∈ getBucket t.GroupTargetsByGeo g ↔ g = x.GetGeo)) := by
  have hfil : ∀ g, getBucket t.GroupTargetsByGeo g =
      t.targets.filter (fun x => x.GetGeo = g) := by
    intro g
    unfold GatewayTarget.GroupTargetsByGeo
    rw [getBucket_groupLoop]
    simp [getBucket]
  refine ⟨hfil, ?_, ?_⟩
  · unfold GatewayTarget.GroupTargetsByGeo
    have h := flatten_groupLoop t.targets []
    simpa using h
  · intro x hx g
    rw [hfil g]
    constructor
    · intro hmem
      have h2 := (List.mem_filter.mp hmem).2
      exact (of_decide_eq_true h2).symm
    · intro hg
      subst hg
      exact List.mem_filter.mpr ⟨hx, by simp⟩

/-- Witness for C6, on the resolved §8 example (targets `A` with geo `US`
and `B` with geo `EU`): membership in the `US` bucket characterizes `A`,
and the `EU` bucket is the filtered sub-sequence. -/
theorem groupTargetsByGeo_partitions_witness :
    cgtA ∈ gtEx.targets ∧
    (cgtA ∈ getBucket gtEx.GroupTargetsByGeo "US" ↔ "US" = cgtA.GetGeo) ∧
    getBucket gtEx.GroupTargetsByGeo "EU" =
      gtEx.targets.filter (fun x => x.GetGeo = "EU") :=
  ⟨by decide, (groupTargetsByGeo_partitions gtEx).2.2 cgtA (by decide) "US",
   (groupTargetsByGeo_partitions gtEx).1 "EU"⟩

/-! ## Short-code theorems -/

/-- C7: for `l` within the encoded digest's length, `ToBase36HashLen s l`
is exactly the first `l` characters of the lower-cased base-36 encoding
of the SHA-224 digest of the UTF-8 bytes of `s`, and its length is
exactly `l`.  (Determinism is inherent: the embedding is a pure function
of `s` and `l`, as is the Go code, which reads no other state.) -/
theorem toBase36HashLen_spec (s : String) (l : Nat)
    (h : l ≤ (ToBase36Hash s).length) :
    ToBase36HashLen s l =
      strTake (strToLower (EncodeBytes (sha224Bytes (utf8Bytes s)))) l ∧
    (ToBase36HashLen s l).length = l := by
  refine ⟨rfl, ?_⟩
  show ((ToBase36Hash s).data.take l).length = l
  rw [List.length_take]
  exact Nat.min_eq_left h

/-- Witness for C7, on the spec's §8 example input `"myname"` with the
callers' length 7. -/
theorem toBase36HashLen_spec_witness :
    7 ≤ (ToBase36Hash "myname").length ∧
    (ToBase36HashLen "myname" 7).length = 7 :=
  ⟨by decide, (toBase36HashLen_spec "myname" 7 (by decide)).2⟩

/-- C8: a cluster target's short code is the cluster name, a hyphen, and
the 7-character truncated hash of `"<namespace>-<name>"` — equivalently,
the first 7 characters of the lower-cased base-36 encoding of the SHA-224
digest of that string's bytes. -/
theorem clusterGatewayTarget_shortcode_format (t : ClusterGatewayTarget) :
    t.GetShortCode = t.cluster.ClusterName ++ "-" ++
      ToBase36HashLen (t.cluster.Namespace ++ "-" ++ t.cluster.Name) 7 ∧
    t.GetShortCode = t.cluster.ClusterName ++ "-" ++
      strTake (strToLower (EncodeBytes (sha224Bytes
        (utf8Bytes (t.cluster.Namespace ++ "-" ++ t.cluster.Name))))) 7 :=
  ⟨rfl, rfl⟩

end Multicluster
